import Mathlib

/-!
Verification of the clawbox orchestration engine against its specification.

The Python sources under `clawbox/` are shallowly embedded: pure helpers become
Lean functions, filesystem and process state become explicit state values or
event traces, and fallible code returns `Except`.  Definitions follow the
source files (`state.py`, `locks.py`, `orchestrator.py`, `sync_events.py`,
`tart.py`, `status.py`, `services.py`, `mutagen.py`); each definition cites the
function it embeds.
-/

namespace Clawbox

/-! ## String utilities

Substring search over the character lists underlying `String`, used to state
"message contains ..." properties about user-facing error text. -/

/-- `listContainsSub pat l` decides whether `pat` occurs contiguously inside `l`. -/
def listContainsSub (pat : List Char) : List Char → Bool
  | [] => pat.isEmpty
  | c :: t => pat.isPrefixOf (c :: t) || listContainsSub pat t

/-- `strContains s pat` decides whether `pat` is a substring of `s`
(the embedding of Python's `pat in s`). -/
def strContains (s pat : String) : Bool :=
  listContainsSub pat.data s.data

theorem listContainsSub_nil_pat (l : List Char) : listContainsSub [] l = true := by
  cases l with
  | nil => rfl
  | cons c t => simp [listContainsSub, List.isPrefixOf]

theorem listContainsSub_of_isPrefixOf {pat l : List Char} (h : pat.isPrefixOf l = true) :
    listContainsSub pat l = true := by
  cases l with
  | nil =>
    cases pat with
    | nil => rfl
    | cons p ps => simp [List.isPrefixOf] at h
  | cons c t => simp [listContainsSub, h]

theorem isPrefixOf_append_self (pat r : List Char) :
    pat.isPrefixOf (pat ++ r) = true := by
  induction pat with
  | nil => simp [List.isPrefixOf]
  | cons p ps ih => simp [List.isPrefixOf, ih]

theorem listContainsSub_append_left {pat t : List Char} (s : List Char)
    (h : listContainsSub pat t = true) : listContainsSub pat (s ++ t) = true := by
  induction s with
  | nil => simpa using h
  | cons c cs ih =>
    simp only [List.cons_append, listContainsSub, Bool.or_eq_true]
    exact Or.inr ih

theorem listContainsSub_self_append (pat r : List Char) :
    listContainsSub pat (pat ++ r) = true :=
  listContainsSub_of_isPrefixOf (isPrefixOf_append_self pat r)

theorem string_data_append (a b : String) : (a ++ b).data = a.data ++ b.data := by
  cases a; cases b; rfl

theorem strContains_append_right {b : String} (a : String) {pat : String}
    (h : strContains b pat = true) : strContains (a ++ b) pat = true := by
  unfold strContains at *
  rw [string_data_append]
  exact listContainsSub_append_left a.data h

theorem strContains_left_self (a b : String) :
    strContains (a ++ b) a = true := by
  unfold strContains
  rw [string_data_append]
  exact listContainsSub_self_append a.data b.data

theorem strContains_middle (a x b : String) :
    strContains (a ++ (x ++ b)) x = true :=
  strContains_append_right a (strContains_left_self x b)

/-! ## Provision marker store (`clawbox/state.py`)

`ProvisionMarker.from_file` parses a `key: value` line file using Python's
`str.splitlines`, `str.split(":", 1)` and `str.strip`; those Python string
semantics are embedded first. -/

/-- Characters Python's `str.splitlines` treats as line boundaries
(LF, CR, VT, FF, FS, GS, RS, NEL, LINE SEPARATOR, PARAGRAPH SEPARATOR). -/
def pyLineBreak (c : Char) : Bool :=
  c.toNat = 10 || c.toNat = 13 || c.toNat = 0x0b || c.toNat = 0x0c ||
  c.toNat = 0x1c || c.toNat = 0x1d || c.toNat = 0x1e ||
  c.toNat = 0x85 || c.toNat = 0x2028 || c.toNat = 0x2029

/-- Characters Python's `str.strip()` removes: the line-break set plus space,
tab, US, and the Unicode space separators Python classifies as whitespace. -/
def pySpaceChar (c : Char) : Bool :=
  pyLineBreak c || c.toNat = 32 || c.toNat = 9 || c.toNat = 0x1f ||
  c.toNat = 0xa0 || c.toNat = 0x1680 ||
  (0x2000 ≤ c.toNat && c.toNat ≤ 0x200a) ||
  c.toNat = 0x202f || c.toNat = 0x205f || c.toNat = 0x3000

/-- Worker for `pySplitlines`: `acc` holds the current line reversed.
Embeds CPython's `str.splitlines()` (no trailing empty line; `\r\n` is a
single boundary). -/
def pySplitlinesAux : List Char → List Char → List String
  | [], acc => if acc.isEmpty then [] else [⟨acc.reverse⟩]
  | '\r' :: '\n' :: rest, acc => ⟨acc.reverse⟩ :: pySplitlinesAux rest []
  | '\r' :: rest, acc => ⟨acc.reverse⟩ :: pySplitlinesAux rest []
  | c :: rest, acc =>
    if pyLineBreak c then ⟨acc.reverse⟩ :: pySplitlinesAux rest []
    else pySplitlinesAux rest (c :: acc)

/-- Python `text.splitlines()`. -/
def pySplitlines (s : String) : List String :=
  pySplitlinesAux s.data []

/-- Python `s.strip()`: drop `pySpaceChar` characters from both ends. -/
def pyStrip (s : String) : String :=
  ⟨((s.data.dropWhile pySpaceChar).reverse.dropWhile pySpaceChar).reverse⟩

/-- Python `line.split(":", 1)` when `":" in line`: split at the first colon;
`none` when the line has no colon (the parser skips such lines). -/
def splitFirstColon : List Char → Option (List Char × List Char)
  | [] => none
  | c :: t =>
    if c = ':' then some ([], t)
    else match splitFirstColon t with
      | none => none
      | some (k, v) => some (c :: k, v)

/-- `clawbox/state.py` `ProvisionMarker` (field order as in the dataclass). -/
structure ProvisionMarker where
  vm_name : String
  profile : String
  playwright : Bool
  tailscale : Bool
  signal_cli : Bool
  signal_payload : Bool
  provisioned_at : String
  sync_backend : String
  deriving DecidableEq, Repr

/-- The `data` dict built by `ProvisionMarker.from_file`'s parse loop.  Python
assigns `data[key] = value` per line; entries are prepended so that a lookup
taking the first hit sees the latest assignment, matching dict semantics. -/
def markerData (text : String) : List (String × String) :=
  (pySplitlines text).foldl
    (fun acc line =>
      match splitFirstColon line.data with
      | none => acc
      | some (k, v) => (pyStrip ⟨k⟩, pyStrip ⟨v⟩) :: acc)
    []

/-- Python `data.get(key, dflt)`. -/
def dataGet (data : List (String × String)) (key dflt : String) : String :=
  match data.find? (fun p => p.1 == key) with
  | some p => p.2
  | none => dflt

/-- `ProvisionMarker.from_file` on a file whose contents are `text`
(the missing-file `None` is handled by the caller via `Option String`). -/
def ProvisionMarker.fromText (text : String) : Option ProvisionMarker :=
  let data := markerData text
  if data.isEmpty then none
  else
    let b := fun name => dataGet data name "false" == "true"
    some
      { vm_name := dataGet data "vm_name" ""
        profile := dataGet data "profile" ""
        playwright := b "playwright"
        tailscale := b "tailscale"
        signal_cli := b "signal_cli"
        signal_payload := b "signal_payload"
        sync_backend := dataGet data "sync_backend" ""
        provisioned_at := dataGet data "provisioned_at" "" }

/-- Python `'true' if b else 'false'` (also `str(b).lower()`). -/
def boolStr (b : Bool) : String := if b then "true" else "false"

/-- The text `ProvisionMarker.write` produces (`"\n".join(lines) + "\n"`). -/
def ProvisionMarker.writeText (m : ProvisionMarker) : String :=
  "vm_name: " ++ m.vm_name ++ "\n" ++
  ("profile: " ++ m.profile ++ "\n" ++
  ("playwright: " ++ boolStr m.playwright ++ "\n" ++
  ("tailscale: " ++ boolStr m.tailscale ++ "\n" ++
  ("signal_cli: " ++ boolStr m.signal_cli ++ "\n" ++
  ("signal_payload: " ++ boolStr m.signal_payload ++ "\n" ++
  ("sync_backend: " ++ m.sync_backend ++ "\n" ++
  ("provisioned_at: " ++ m.provisioned_at ++ "\n")))))))

/-- A marker string field that survives the line format: no line-break
characters (so it stays on one line) and no leading or trailing Python
whitespace (so `strip` leaves it unchanged). -/
def pyCleanField (s : String) : Prop :=
  (∀ c ∈ s.data, pyLineBreak c = false) ∧
  s.data.dropWhile pySpaceChar = s.data ∧
  s.data.reverse.dropWhile pySpaceChar = s.data.reverse

instance (s : String) : Decidable (pyCleanField s) := by
  unfold pyCleanField; infer_instance

/-! ## `up` option validation and provision gating (`clawbox/orchestrator.py`)

The marker-file location and the group-vars base name are threaded as
parameters (`markerFile`, `base`); the marker file's contents are an
`Option String` (`none` = file does not exist). -/

/-- `orchestrator.UpOptions`. -/
structure UpOptions where
  vm_number : Nat
  profile : String
  openclaw_source : String
  openclaw_payload : String
  signal_payload : String
  enable_playwright : Bool
  enable_tailscale : Bool
  enable_signal_cli : Bool
  deriving DecidableEq, Repr

/-- `config.vm_name_for`: `f"{vm_base_name()}-{number}"`, with the configured
base name passed in. -/
def vm_name_for (base : String) (number : Nat) : String :=
  base ++ "-" ++ toString number

/-- `orchestrator.REQUIRED_DEVELOPER_SYNC_BACKEND`. -/
def REQUIRED_DEVELOPER_SYNC_BACKEND : String := "mutagen"

/-- Characters `shlex.quote` leaves unquoted: ASCII letters and digits plus
underscore, at-sign, percent, plus, equals, colon, comma, dot, slash, dash. -/
def shlexSafeChar (c : Char) : Bool :=
  (('A' ≤ c && c ≤ 'Z') || ('a' ≤ c && c ≤ 'z') || ('0' ≤ c && c ≤ '9')) ||
  c = '_' || c = '@' || c = '%' || c = '+' || c = '=' || c = ':' ||
  c = ',' || c = '.' || c = '/' || c = '-'

/-- Python `shlex.quote`: empty → `''`; all-safe strings unchanged; otherwise
wrap in single quotes, rewriting each `'` to `'"'"'`. -/
def shlexQuote (s : String) : String :=
  if s = "" then "''"
  else if s.data.all shlexSafeChar then s
  else
    "'" ++
    (⟨s.data.foldr
        (fun c acc =>
          if c = '\'' then '\'' :: '"' :: '\'' :: '"' :: '\'' :: acc else c :: acc)
        []⟩ : String) ++
    "'"

/-- `orchestrator._render_up_command`: rebuild the `clawbox up` invocation from
the options (optional-service flags in `OPTIONAL_SERVICES` order). -/
def render_up_command (opts : UpOptions) : String :=
  let cmd :=
    ["clawbox", "up", toString opts.vm_number] ++
    (if opts.profile = "developer" then
      ["--developer", "--openclaw-source", opts.openclaw_source,
       "--openclaw-payload", opts.openclaw_payload]
     else []) ++
    (if opts.enable_playwright then ["--add-playwright-provisioning"] else []) ++
    (if opts.enable_tailscale then ["--add-tailscale-provisioning"] else []) ++
    (if opts.enable_signal_cli then ["--add-signal-cli-provisioning"] else []) ++
    (if opts.signal_payload ≠ "" then ["--signal-cli-payload", opts.signal_payload] else [])
  String.intercalate " " (cmd.map shlexQuote)

/-- `orchestrator._render_recreate_commands`. -/
def render_recreate_commands (opts : UpOptions) : String :=
  "  clawbox delete " ++ toString opts.vm_number ++ "\n" ++
  ("  " ++ render_up_command opts)

/-- The literal recreate instruction shared by every refusal in
`_compute_up_provision_reason`. -/
def recreateInstruction : String := "Recreate the VM instead:\n"

/-- Message raised when the marker file is missing for an existing VM. -/
def missingMarkerMsg (base : String) (opts : UpOptions) : String :=
  "Error: Provision marker is missing for existing VM '" ++
  vm_name_for base opts.vm_number ++ "'.\n" ++
  "In-place reprovision is unsafe after initial provisioning.\n" ++
  (recreateInstruction ++ render_recreate_commands opts)

/-- Message raised when the marker file exists but parses to `None`. -/
def unparseableMarkerMsg (markerFile : String) (opts : UpOptions) : String :=
  "Error: Provision marker exists but could not be parsed: " ++ markerFile ++ "\n" ++
  "In-place reprovision is unsafe after initial provisioning.\n" ++
  (recreateInstruction ++ render_recreate_commands opts)

/-- Message raised for a developer marker whose `sync_backend` is not the
required backend token. -/
def legacyBackendMsg (marker : ProvisionMarker) (opts : UpOptions) : String :=
  let marker_backend := if marker.sync_backend = "" then "(missing)" else marker.sync_backend
  "Error: Existing developer VM uses a legacy provision marker format.\n" ++
  "This VM predates required sync backend metadata for developer mode.\n" ++
  "  marker sync_backend: " ++ marker_backend ++ "\n" ++
  "  required sync_backend: " ++ REQUIRED_DEVELOPER_SYNC_BACKEND ++ "\n" ++
  "In-place reprovision is unsafe after initial provisioning.\n" ++
  (recreateInstruction ++ render_recreate_commands opts)

/-- Message raised when any tracked marker field differs from the request. -/
def markerMismatchMsg (markerFile : String) (marker : ProvisionMarker)
    (opts : UpOptions) (desired_signal_payload : Bool) : String :=
  "Error: Requested options do not match this VM's existing provision marker.\n" ++
  "In-place reprovision is unsafe after initial provisioning.\n" ++
  "  marker file: " ++ markerFile ++ "\n" ++
  "  marker profile/playwright/tailscale/signal_cli/signal_payload: " ++
  marker.profile ++ "/" ++ boolStr marker.playwright ++ "/" ++
  boolStr marker.tailscale ++ "/" ++ boolStr marker.signal_cli ++ "/" ++
  boolStr marker.signal_payload ++ "\n" ++
  "  requested profile/playwright/tailscale/signal_cli/signal_payload: " ++
  opts.profile ++ "/" ++ boolStr opts.enable_playwright ++ "/" ++
  boolStr opts.enable_tailscale ++ "/" ++ boolStr opts.enable_signal_cli ++ "/" ++
  boolStr desired_signal_payload ++ "\n" ++
  (recreateInstruction ++ render_recreate_commands opts)

/-- `orchestrator._compute_up_provision_reason`.  `markerContents` is the
marker file's text (`none` = missing file); `Except.error` embeds the raised
`UserFacingError`, `Except.ok` the returned reason string. -/
def compute_up_provision_reason (base markerFile : String) (opts : UpOptions)
    (markerContents : Option String) (created_vm : Bool)
    (desired_signal_payload : Bool) : Except String String :=
  if created_vm then .ok "VM was created in this run"
  else
    match markerContents with
    | none => .error (missingMarkerMsg base opts)
    | some text =>
      match ProvisionMarker.fromText text with
      | none => .error (unparseableMarkerMsg markerFile opts)
      | some marker =>
        if opts.profile = "developer" ∧ marker.profile = "developer" ∧
            marker.sync_backend ≠ REQUIRED_DEVELOPER_SYNC_BACKEND then
          .error (legacyBackendMsg marker opts)
        else if marker.profile ≠ opts.profile ∨
            marker.playwright ≠ opts.enable_playwright ∨
            marker.tailscale ≠ opts.enable_tailscale ∨
            marker.signal_cli ≠ opts.enable_signal_cli ∨
            marker.signal_payload ≠ desired_signal_payload then
          .error (markerMismatchMsg markerFile marker opts desired_signal_payload)
        else .ok ""

/-- Spec §4.6: a marker is compatible with a requested `up` iff every tracked
field matches exactly, and for the developer profile `sync_backend` equals the
required backend token. -/
def markerCompatible (marker : ProvisionMarker) (opts : UpOptions)
    (desired_signal_payload : Bool) : Prop :=
  marker.profile = opts.profile ∧
  marker.playwright = opts.enable_playwright ∧
  marker.tailscale = opts.enable_tailscale ∧
  marker.signal_cli = opts.enable_signal_cli ∧
  marker.signal_payload = desired_signal_payload ∧
  (opts.profile = "developer" → marker.sync_backend = REQUIRED_DEVELOPER_SYNC_BACKEND)

instance (m : ProvisionMarker) (o : UpOptions) (d : Bool) :
    Decidable (markerCompatible m o d) := by
  unfold markerCompatible; infer_instance

theorem recreate_in_missingMarkerMsg (base : String) (opts : UpOptions) :
    strContains (missingMarkerMsg base opts) recreateInstruction = true := by
  unfold missingMarkerMsg
  exact strContains_middle _ _ _

theorem recreate_in_unparseableMarkerMsg (markerFile : String) (opts : UpOptions) :
    strContains (unparseableMarkerMsg markerFile opts) recreateInstruction = true := by
  unfold unparseableMarkerMsg
  exact strContains_middle _ _ _

theorem recreate_in_legacyBackendMsg (marker : ProvisionMarker) (opts : UpOptions) :
    strContains (legacyBackendMsg marker opts) recreateInstruction = true := by
  unfold legacyBackendMsg
  exact strContains_middle _ _ _

theorem recreate_in_markerMismatchMsg (markerFile : String) (marker : ProvisionMarker)
    (opts : UpOptions) (dsp : Bool) :
    strContains (markerMismatchMsg markerFile marker opts dsp) recreateInstruction = true := by
  unfold markerMismatchMsg
  exact strContains_middle _ _ _

theorem cupr_missing (base mf : String) (opts : UpOptions) (dsp : Bool) :
    compute_up_provision_reason base mf opts none false dsp =
      .error (missingMarkerMsg base opts) := rfl

theorem cupr_some (base mf : String) (opts : UpOptions) (dsp : Bool) (text : String) :
    compute_up_provision_reason base mf opts (some text) false dsp =
      (match ProvisionMarker.fromText text with
       | none => .error (unparseableMarkerMsg mf opts)
       | some marker =>
         if opts.profile = "developer" ∧ marker.profile = "developer" ∧
             marker.sync_backend ≠ REQUIRED_DEVELOPER_SYNC_BACKEND then
           .error (legacyBackendMsg marker opts)
         else if marker.profile ≠ opts.profile ∨
             marker.playwright ≠ opts.enable_playwright ∨
             marker.tailscale ≠ opts.enable_tailscale ∨
             marker.signal_cli ≠ opts.enable_signal_cli ∨
             marker.signal_payload ≠ dsp then
           .error (markerMismatchMsg mf marker opts dsp)
         else .ok "") := rfl

/-- C1: for `up` on an existing VM not created in this run, the computed
provision reason is the empty string exactly when the marker file exists,
parses, and every tracked field (profile, playwright, tailscale, signal_cli,
signal_payload, and `sync_backend = "mutagen"` for the developer profile)
matches the request, in which case `up` skips provisioning; in every other
case — a differing field, a missing marker file, or an unparseable marker —
`_compute_up_provision_reason` raises a user-facing error containing the
recreate instruction. -/
theorem up_marker_gating (base markerFile : String) (opts : UpOptions)
    (markerContents : Option String) (dsp : Bool) :
    match compute_up_provision_reason base markerFile opts markerContents false dsp with
    | .ok reason =>
        reason = "" ∧ ∃ text marker, markerContents = some text ∧
          ProvisionMarker.fromText text = some marker ∧ markerCompatible marker opts dsp
    | .error e =>
        strContains e recreateInstruction = true ∧
        ¬ ∃ text marker, markerContents = some text ∧
          ProvisionMarker.fromText text = some marker ∧ markerCompatible marker opts dsp := by
  cases markerContents with
  | none =>
    rw [cupr_missing]
    refine ⟨recreate_in_missingMarkerMsg base opts, ?_⟩
    rintro ⟨text, marker, h, -, -⟩
    exact Option.noConfusion h
  | some text =>
    rw [cupr_some]
    cases hft : ProvisionMarker.fromText text with
    | none =>
      refine ⟨recreate_in_unparseableMarkerMsg markerFile opts, ?_⟩
      rintro ⟨t, marker, ht, hm, -⟩
      rw [Option.some_inj] at ht
      subst ht
      rw [hft] at hm
      exact Option.noConfusion hm
    | some marker =>
      simp only []
      by_cases h1 : opts.profile = "developer" ∧ marker.profile = "developer" ∧
          marker.sync_backend ≠ REQUIRED_DEVELOPER_SYNC_BACKEND
      · rw [if_pos h1]
        refine ⟨recreate_in_legacyBackendMsg marker opts, ?_⟩
        rintro ⟨t, m, ht, hm, hc⟩
        rw [Option.some_inj] at ht
        subst ht
        rw [hft, Option.some_inj] at hm
        subst hm
        exact h1.2.2 (hc.2.2.2.2.2 h1.1)
      · rw [if_neg h1]
        by_cases h2 : marker.profile ≠ opts.profile ∨
            marker.playwright ≠ opts.enable_playwright ∨
            marker.tailscale ≠ opts.enable_tailscale ∨
            marker.signal_cli ≠ opts.enable_signal_cli ∨
            marker.signal_payload ≠ dsp
        · rw [if_pos h2]
          refine ⟨recreate_in_markerMismatchMsg markerFile marker opts dsp, ?_⟩
          rintro ⟨t, m, ht, hm, hc⟩
          rw [Option.some_inj] at ht
          subst ht
          rw [hft, Option.some_inj] at hm
          subst hm
          rcases hc with ⟨e1, e2, e3, e4, e5, -⟩
          rcases h2 with h | h | h | h | h
          · exact h e1
          · exact h e2
          · exact h e3
          · exact h e4
          · exact h e5
        · rw [if_neg h2]
          push_neg at h2
          obtain ⟨e1, e2, e3, e4, e5⟩ := h2
          refine ⟨rfl, text, marker, rfl, hft, e1, e2, e3, e4, e5, ?_⟩
          intro hdev
          by_contra hsync
          exact h1 ⟨hdev, e1.trans hdev, hsync⟩

/-! ## Virtualization-limit hint (`orchestrator._with_virtualization_limit_hint`) -/

/-- Python `message.lower()` (character-wise; the indicator tokens are ASCII,
for which `Char.toLower` agrees with Python). -/
def pyLower (s : String) : String := ⟨s.data.map Char.toLower⟩

/-- The indicator substrings checked against the lowered message. -/
def virtualizationIndicators : List String :=
  ["vzerrordomain", "virtualization", "virtual machine limit", "system limit",
   "exceeds the system limit", "maximum number of virtual machines", "resource busy"]

/-- The text appended to a matching message (leading newline included, as in
the f-string). -/
def virtualizationHintSuffix : String :=
  "\n" ++
  "Hint: macOS Virtualization.framework may be refusing another VM on this host.\n" ++
  "Stop other VMs and retry (for example: clawbox down 1, clawbox down 2)."

/-- `orchestrator._with_virtualization_limit_hint`. -/
def with_virtualization_limit_hint (message : String) : String :=
  if virtualizationIndicators.any (fun token => strContains (pyLower message) token) then
    message ++ virtualizationHintSuffix
  else message

theorem pyLower_append (a b : String) : pyLower (a ++ b) = pyLower a ++ pyLower b := by
  cases a with
  | mk la =>
    cases b with
    | mk lb =>
      show String.mk ((la ++ lb).map Char.toLower)
        = String.mk (la.map Char.toLower ++ lb.map Char.toLower)
      rw [List.map_append]

theorem pySplitlinesAux_clean_line (l : List Char) (hl : ∀ c ∈ l, pyLineBreak c = false) :
    ∀ acc rest, pySplitlinesAux (l ++ '\n' :: rest) acc =
      ⟨acc.reverse ++ l⟩ :: pySplitlinesAux rest [] := by
  induction l with
  | nil =>
    intro acc rest
    have hnl : pyLineBreak '\n' = true := by decide
    simp [pySplitlinesAux, hnl]
  | cons c t ih =>
    intro acc rest
    have hc : pyLineBreak c = false := hl c (List.mem_cons_self c t)
    have hcr : c ≠ '\r' := by
      intro h
      subst h
      simp [pyLineBreak] at hc
    have ht : ∀ x ∈ t, pyLineBreak x = false := fun x hx => hl x (List.mem_cons_of_mem c hx)
    rw [List.cons_append]
    have step : pySplitlinesAux (c :: (t ++ '\n' :: rest)) acc
        = pySplitlinesAux (t ++ '\n' :: rest) (c :: acc) := by
      simp [pySplitlinesAux, hcr, hc]
    rw [step, ih ht (c :: acc) rest]
    simp

theorem clean_append {a b : String} (ha : ∀ c ∈ a.data, pyLineBreak c = false)
    (hb : ∀ c ∈ b.data, pyLineBreak c = false) :
    ∀ c ∈ (a ++ b).data, pyLineBreak c = false := by
  rw [string_data_append]
  intro c hc
  rcases List.mem_append.1 hc with h | h
  · exact ha c h
  · exact hb c h

theorem boolStr_clean (b : Bool) : ∀ c ∈ (boolStr b).data, pyLineBreak c = false := by
  cases b <;> decide

theorem pySplitlines_cons_line (line rest : String)
    (h : ∀ c ∈ line.data, pyLineBreak c = false) :
    pySplitlines (line ++ "\n" ++ rest) = line :: pySplitlines rest := by
  unfold pySplitlines
  have hd : ((line ++ "\n" ++ rest) : String).data = line.data ++ '\n' :: rest.data := by
    rw [string_data_append, string_data_append]
    simp
  rw [hd, pySplitlinesAux_clean_line line.data h [] rest.data]
  simp

theorem pySplitlines_last_line (line : String)
    (h : ∀ c ∈ line.data, pyLineBreak c = false) :
    pySplitlines (line ++ "\n") = [line] := by
  unfold pySplitlines
  have hd : ((line ++ "\n") : String).data = line.data ++ '\n' :: ([] : List Char) := by
    rw [string_data_append]
  rw [hd, pySplitlinesAux_clean_line line.data h [] []]
  simp [pySplitlinesAux]

theorem writeText_lines (m : ProvisionMarker)
    (h1 : ∀ c ∈ m.vm_name.data, pyLineBreak c = false)
    (h2 : ∀ c ∈ m.profile.data, pyLineBreak c = false)
    (h3 : ∀ c ∈ m.sync_backend.data, pyLineBreak c = false)
    (h4 : ∀ c ∈ m.provisioned_at.data, pyLineBreak c = false) :
    pySplitlines m.writeText =
      ["vm_name: " ++ m.vm_name, "profile: " ++ m.profile,
       "playwright: " ++ boolStr m.playwright, "tailscale: " ++ boolStr m.tailscale,
       "signal_cli: " ++ boolStr m.signal_cli,
       "signal_payload: " ++ boolStr m.signal_payload,
       "sync_backend: " ++ m.sync_backend,
       "provisioned_at: " ++ m.provisioned_at] := by
  unfold ProvisionMarker.writeText
  rw [pySplitlines_cons_line _ _ (clean_append (by decide) h1),
      pySplitlines_cons_line _ _ (clean_append (by decide) h2),
      pySplitlines_cons_line _ _ (clean_append (by decide) (boolStr_clean m.playwright)),
      pySplitlines_cons_line _ _ (clean_append (by decide) (boolStr_clean m.tailscale)),
      pySplitlines_cons_line _ _ (clean_append (by decide) (boolStr_clean m.signal_cli)),
      pySplitlines_cons_line _ _ (clean_append (by decide) (boolStr_clean m.signal_payload)),
      pySplitlines_cons_line _ _ (clean_append (by decide) h3),
      pySplitlines_last_line _ (clean_append (by decide) h4)]

theorem splitFirstColon_key (k : List Char) (hk : ∀ c ∈ k, c ≠ ':') (v : List Char) :
    splitFirstColon (k ++ ':' :: v) = some (k, v) := by
  induction k with
  | nil => simp [splitFirstColon]
  | cons c t ih =>
    have hc : c ≠ ':' := hk c (List.mem_cons_self c t)
    have ht : ∀ x ∈ t, x ≠ ':' := fun x hx => hk x (List.mem_cons_of_mem c hx)
    rw [List.cons_append]
    simp [splitFirstColon, hc, ih ht]

theorem pyStrip_space_value (v : String)
    (h1 : v.data.dropWhile pySpaceChar = v.data)
    (h2 : v.data.reverse.dropWhile pySpaceChar = v.data.reverse) :
    pyStrip ⟨' ' :: v.data⟩ = v := by
  unfold pyStrip
  have hsp : pySpaceChar ' ' = true := by decide
  simp only [List.dropWhile, hsp, h1, h2, List.reverse_reverse]

theorem boolStr_strip (b : Bool) : pyStrip ⟨' ' :: (boolStr b).data⟩ = boolStr b := by
  cases b <;> decide

theorem markerData_writeText (m : ProvisionMarker)
    (hvm : pyCleanField m.vm_name) (hpr : pyCleanField m.profile)
    (hsb : pyCleanField m.sync_backend) (hpa : pyCleanField m.provisioned_at) :
    markerData m.writeText =
      [("provisioned_at", m.provisioned_at), ("sync_backend", m.sync_backend),
       ("signal_payload", boolStr m.signal_payload), ("signal_cli", boolStr m.signal_cli),
       ("tailscale", boolStr m.tailscale), ("playwright", boolStr m.playwright),
       ("profile", m.profile), ("vm_name", m.vm_name)] := by
  unfold markerData
  rw [writeText_lines m hvm.1 hpr.1 hsb.1 hpa.1]
  have e1 : splitFirstColon (("vm_name: " ++ m.vm_name) : String).data
      = some ("vm_name".data, ' ' :: m.vm_name.data) :=
    splitFirstColon_key "vm_name".data (by decide) (' ' :: m.vm_name.data)
  have e2 : splitFirstColon (("profile: " ++ m.profile) : String).data
      = some ("profile".data, ' ' :: m.profile.data) :=
    splitFirstColon_key "profile".data (by decide) (' ' :: m.profile.data)
  have e3 : splitFirstColon (("playwright: " ++ boolStr m.playwright) : String).data
      = some ("playwright".data, ' ' :: (boolStr m.playwright).data) :=
    splitFirstColon_key "playwright".data (by decide) (' ' :: (boolStr m.playwright).data)
  have e4 : splitFirstColon (("tailscale: " ++ boolStr m.tailscale) : String).data
      = some ("tailscale".data, ' ' :: (boolStr m.tailscale).data) :=
    splitFirstColon_key "tailscale".data (by decide) (' ' :: (boolStr m.tailscale).data)
  have e5 : splitFirstColon (("signal_cli: " ++ boolStr m.signal_cli) : String).data
      = some ("signal_cli".data, ' ' :: (boolStr m.signal_cli).data) :=
    splitFirstColon_key "signal_cli".data (by decide) (' ' :: (boolStr m.signal_cli).data)
  have e6 : splitFirstColon (("signal_payload: " ++ boolStr m.signal_payload) : String).data
      = some ("signal_payload".data, ' ' :: (boolStr m.signal_payload).data) :=
    splitFirstColon_key "signal_payload".data (by decide) (' ' :: (boolStr m.signal_payload).data)
  have e7 : splitFirstColon (("sync_backend: " ++ m.sync_backend) : String).data
      = some ("sync_backend".data, ' ' :: m.sync_backend.data) :=
    splitFirstColon_key "sync_backend".data (by decide) (' ' :: m.sync_backend.data)
  have e8 : splitFirstColon (("provisioned_at: " ++ m.provisioned_at) : String).data
      = some ("provisioned_at".data, ' ' :: m.provisioned_at.data) :=
    splitFirstColon_key "provisioned_at".data (by decide) (' ' :: m.provisioned_at.data)
  simp only [List.foldl, e1, e2, e3, e4, e5, e6, e7, e8]
  rw [pyStrip_space_value m.vm_name hvm.2.1 hvm.2.2,
      pyStrip_space_value m.profile hpr.2.1 hpr.2.2,
      pyStrip_space_value m.sync_backend hsb.2.1 hsb.2.2,
      pyStrip_space_value m.provisioned_at hpa.2.1 hpa.2.2,
      boolStr_strip, boolStr_strip, boolStr_strip, boolStr_strip]
  norm_num [pyStrip]
  decide

/-- C10: writing a `ProvisionMarker` with `ProvisionMarker.write` and parsing
the file back with `ProvisionMarker.from_file` returns the original marker,
provided each string field (`vm_name`, `profile`, `sync_backend`,
`provisioned_at`) contains no newline (formalised as Python's line-boundary
character set, which `str.splitlines` splits on) and carries no leading or
trailing whitespace (formalised as Python's `str.strip` whitespace set).
All boolean bits and all string fields round-trip. -/
theorem provision_marker_write_fromText_roundtrip (m : ProvisionMarker)
    (hvm : pyCleanField m.vm_name) (hpr : pyCleanField m.profile)
    (hsb : pyCleanField m.sync_backend) (hpa : pyCleanField m.provisioned_at) :
    ProvisionMarker.fromText m.writeText = some m := by
  obtain ⟨vn, pr, pw, ts, sc, sp, pa, sb⟩ := m
  simp only [ProvisionMarker.fromText]
  rw [markerData_writeText ⟨vn, pr, pw, ts, sc, sp, pa, sb⟩ hvm hpr hsb hpa]
  cases pw <;> cases ts <;> cases sc <;> cases sp <;> rfl

/-- Witness for C10: a concrete developer marker round-trips through
write-then-parse. -/
theorem provision_marker_write_fromText_roundtrip_witness :
    (pyCleanField "clawbox-1" ∧ pyCleanField "developer" ∧ pyCleanField "mutagen" ∧
       pyCleanField "2024-01-01T00:00:00Z") ∧
    ProvisionMarker.fromText
        (ProvisionMarker.writeText
          ⟨"clawbox-1", "developer", true, false, true, false,
           "2024-01-01T00:00:00Z", "mutagen"⟩) =
      some ⟨"clawbox-1", "developer", true, false, true, false,
            "2024-01-01T00:00:00Z", "mutagen"⟩ :=
  ⟨⟨by decide, by decide, by decide, by decide⟩,
   provision_marker_write_fromText_roundtrip
     ⟨"clawbox-1", "developer", true, false, true, false,
      "2024-01-01T00:00:00Z", "mutagen"⟩
     (by decide) (by decide) (by decide) (by decide)⟩

/-- Witness for C1: a concrete matching developer marker yields reason `""`,
and a concrete mismatching request is refused with the recreate
instruction in the message. -/
theorem up_marker_gating_witness :
    (let opts : UpOptions := ⟨1, "developer", "/S", "/P", "", true, false, true⟩
     let marker : ProvisionMarker :=
       ⟨"clawbox-1", "developer", true, false, true, false, "2024-01-01T00:00:00Z", "mutagen"⟩
     match compute_up_provision_reason "clawbox" "/state/clawbox-1.provisioned" opts
        (some marker.writeText) false false with
     | .ok reason =>
         reason = "" ∧ ∃ text m, some marker.writeText = some text ∧
           ProvisionMarker.fromText text = some m ∧ markerCompatible m opts false
     | .error e =>
         strContains e recreateInstruction = true ∧
         ¬ ∃ text m, some marker.writeText = some text ∧
           ProvisionMarker.fromText text = some m ∧ markerCompatible m opts false) :=
  up_marker_gating "clawbox" "/state/clawbox-1.provisioned"
    ⟨1, "developer", "/S", "/P", "", true, false, true⟩
    (some (ProvisionMarker.writeText
      ⟨"clawbox-1", "developer", true, false, true, false, "2024-01-01T00:00:00Z", "mutagen"⟩))
    false

set_option maxRecDepth 4096 in
/-- C6 counterexample: applying `_with_virtualization_limit_hint` twice to the
concrete message `"vzerrordomain"` does not equal applying it once — the hint
text is appended a second time, because the hint itself contains the indicator
`virtualization`.  This refutes the claimed idempotence. -/
theorem virtualization_hint_not_idempotent :
    with_virtualization_limit_hint (with_virtualization_limit_hint "vzerrordomain") ≠
      with_virtualization_limit_hint "vzerrordomain" := by decide

/-- C6 (amended): `_with_virtualization_limit_hint` is the identity on messages
matching no indicator (so reapplication changes nothing there), but for a
matching message each application appends the hint text again: the double
application yields the message followed by two copies of the hint. -/
theorem with_virtualization_limit_hint_twice (m : String) :
    with_virtualization_limit_hint (with_virtualization_limit_hint m) =
      (if virtualizationIndicators.any (fun token => strContains (pyLower m) token) then
        m ++ virtualizationHintSuffix ++ virtualizationHintSuffix
      else m) := by
  by_cases h : virtualizationIndicators.any (fun token => strContains (pyLower m) token) = true
  · rw [if_pos h]
    have h1 : with_virtualization_limit_hint m = m ++ virtualizationHintSuffix := by
      unfold with_virtualization_limit_hint
      rw [if_pos h]
    have hcontains :
        strContains (pyLower (m ++ virtualizationHintSuffix)) "virtualization" = true := by
      rw [pyLower_append]
      exact strContains_append_right _ (by decide)
    have h2 : virtualizationIndicators.any
        (fun token => strContains (pyLower (m ++ virtualizationHintSuffix)) token) = true :=
      List.any_eq_true.2 ⟨"virtualization", by decide, hcontains⟩
    rw [h1]
    unfold with_virtualization_limit_hint
    rw [if_pos h2]
  · rw [if_neg h]
    have h1 : with_virtualization_limit_hint m = m := by
      unfold with_virtualization_limit_hint
      rw [if_neg h]
    rw [h1, h1]

/-! ## Path lock manager (`clawbox/locks.py`)

A lock root for one kind is a list of `(key, LockDir)` pairs: `key` stands for
the directory name (the SHA-256 of the canonical path; keys are unique since
they are directory names), `LockDir` for the metadata files inside.  The
sequential model assumes filesystem operations succeed (`mkdir` fails exactly
when the key is present) and no concurrent writer interferes between attempts.
-/

/-- `locks.LockSpec`. -/
structure LockSpec where
  lock_kind : String
  path_field : String
  resource_label : String
  arg_hint : String
  deriving DecidableEq, Repr

def OPENCLAW_SOURCE_LOCK : LockSpec :=
  ⟨"openclaw-source", "source_path", "OpenClaw source", "--openclaw-source"⟩

def OPENCLAW_PAYLOAD_LOCK : LockSpec :=
  ⟨"openclaw-payload", "payload_path", "OpenClaw payload", "--openclaw-payload"⟩

def SIGNAL_PAYLOAD_LOCK : LockSpec :=
  ⟨"signal-payload", "payload_path", "Signal payload", "--signal-cli-payload"⟩

/-- Metadata files inside one lock directory (`_write_metadata`):
`owner_vm`, `owner_host`, and the `<path_field>` file. -/
structure LockDir where
  owner_vm : String
  owner_host : String
  path_value : String
  deriving DecidableEq, Repr

/-- One kind's lock root: directory name to metadata. -/
abbrev LockState := List (String × LockDir)

/-- Does a directory named `key` exist (`lock_dir.mkdir()` raises
`FileExistsError` exactly when it does)? -/
def lockLookup (st : LockState) (key : String) : Option LockDir :=
  (st.find? (fun p => p.1 == key)).map (fun p => p.2)

/-- `_reclaim_lock_dir` / `shutil.rmtree` of one directory. -/
def lockErase (st : LockState) (key : String) : LockState :=
  st.filter (fun p => p.1 != key)

/-- `locks._cleanup_other_locks_for_vm`: remove every directory other than
`keep` whose `owner_vm` equals `vm`. -/
def cleanup_other_locks_for_vm (st : LockState) (vm keep : String) : LockState :=
  st.filter (fun p => p.1 == keep || p.2.owner_vm != vm)

/-- The `LockError` for a path held by a running VM (message text from
`acquire_path_lock`; grouped right-associated so containment lemmas apply). -/
def lockInUseMsg (spec : LockSpec) (owner_vm owner_host path_value canonical : String) :
    String :=
  "Error: " ++
  (spec.resource_label ++
  (" is already in use by running VM '" ++
  (owner_vm ++
  ("'.\n  path: " ++
  ((if path_value = "" then canonical else path_value) ++
  ("\n  owner host: " ++
  ((if owner_host = "" then "unknown" else owner_host) ++
  ("\nUse a different " ++
  (spec.arg_hint ++ " path or run clawbox down on the owner VM first.")))))))))

/-- The `LockError` raised when all attempts are exhausted. -/
def lockContendedMsg (spec : LockSpec) : String :=
  "Error: Could not acquire lock for " ++ spec.resource_label ++ ".\n" ++
  "The lock directory was contended by concurrent operations. Retry the command."

/-- The metadata `_write_metadata` produces for this acquisition. -/
def freshLockDir (vm host canonical : String) : LockDir := ⟨vm, host, canonical⟩

/-- The attempt loop of `locks.acquire_path_lock` (attempts run from 1 to 12;
`fuel` counts the attempts left).  `running` is the VM backend's
`tart.vm_running`. -/
def acquireGo (running : String → Bool) (spec : LockSpec) (vm host canonical : String) :
    Nat → Nat → LockState → Except String LockState
  | 0, _, _ => .error (lockContendedMsg spec)
  | fuel + 1, attempt, st =>
    match lockLookup st canonical with
    | none =>
      .ok (cleanup_other_locks_for_vm
        ((canonical, freshLockDir vm host canonical) :: st) vm canonical)
    | some d =>
      if d.owner_vm = "" then
        if attempt ≤ 3 then acquireGo running spec vm host canonical fuel (attempt + 1) st
        else acquireGo running spec vm host canonical fuel (attempt + 1) (lockErase st canonical)
      else if d.owner_vm = vm then
        .ok (cleanup_other_locks_for_vm
          ((canonical, freshLockDir vm host canonical) :: lockErase st canonical) vm canonical)
      else if running d.owner_vm then
        .error (lockInUseMsg spec d.owner_vm d.owner_host d.path_value canonical)
      else acquireGo running spec vm host canonical fuel (attempt + 1) (lockErase st canonical)

/-- `locks.acquire_path_lock` (max_attempts = 12). -/
def acquire_path_lock (running : String → Bool) (spec : LockSpec)
    (vm host canonical : String) (st : LockState) : Except String LockState :=
  acquireGo running spec vm host canonical 12 1 st

/-- `locks.cleanup_locks_for_vm` restricted to one kind's root. -/
def cleanup_locks_for_vm (st : LockState) (vm : String) : LockState :=
  st.filter (fun p => p.2.owner_vm != vm)

/-- Modelled from the spec: `locked_path_for_vm` is imported from
`clawbox.locks` by the orchestrator but is missing from the source under
`src/`.  Spec §4.2: it "reads back the canonical path a VM currently holds
for a kind (used to reactivate sync after boot without re-passing
arguments)"; a VM holding no lock of the kind yields the empty result. -/
def locked_path_for_vm (st : LockState) (vm : String) : String :=
  match st.find? (fun p => p.2.owner_vm == vm) with
  | some p => p.2.path_value
  | none => ""

theorem lockErase_idem (st : LockState) (key : String) :
    lockErase (lockErase st key) key = lockErase st key := by
  unfold lockErase
  induction st with
  | nil => rfl
  | cons a t ih =>
    by_cases h : (a.1 != key) = true
    · rw [List.filter_cons, if_pos h, List.filter_cons, if_pos h, ih]
    · rw [List.filter_cons, if_neg h, ih]

theorem lockLookup_none_forall {st : LockState} {key : String}
    (h : lockLookup st key = none) : ∀ p ∈ st, (p.1 == key) = false := by
  unfold lockLookup at h
  rw [Option.map_eq_none'] at h
  intro p hp
  have := List.find?_eq_none.mp h p hp
  simpa using this

theorem lockLookup_none_erase {st : LockState} {key : String}
    (h : lockLookup st key = none) : lockErase st key = st := by
  unfold lockErase
  apply List.filter_eq_self.mpr
  intro p hp
  have := lockLookup_none_forall h p hp
  simp [bne, this]

theorem lockLookup_erase (st : LockState) (key : String) :
    lockLookup (lockErase st key) key = none := by
  unfold lockLookup lockErase
  rw [Option.map_eq_none', List.find?_eq_none]
  intro p hp
  have := List.of_mem_filter hp
  simp only [bne] at this
  simpa using this

/-- Any successful attempt loop returns the fresh directory inserted over the
(possibly reclaimed) previous one, pruned of the VM's other locks. -/
theorem acquireGo_ok_shape (running : String → Bool) (spec : LockSpec)
    (vm host canonical : String) :
    ∀ fuel attempt st st',
      acquireGo running spec vm host canonical fuel attempt st = .ok st' →
      st' = cleanup_other_locks_for_vm
        ((canonical, freshLockDir vm host canonical) :: lockErase st canonical) vm canonical := by
  intro fuel
  induction fuel with
  | zero =>
    intro attempt st st' h
    simp [acquireGo] at h
  | succ n ih =>
    intro attempt st st' h
    cases hl : lockLookup st canonical with
    | none =>
      simp only [acquireGo, hl] at h
      rw [Except.ok.injEq] at h
      rw [← h, lockLookup_none_erase hl]
    | some d =>
      simp only [acquireGo, hl] at h
      by_cases h1 : d.owner_vm = ""
      · rw [if_pos h1] at h
        by_cases h2 : attempt ≤ 3
        · rw [if_pos h2] at h
          exact ih _ _ _ h
        · rw [if_neg h2] at h
          have := ih _ _ _ h
          rwa [lockErase_idem] at this
      · rw [if_neg h1] at h
        by_cases h2 : d.owner_vm = vm
        · rw [if_pos h2] at h
          rw [Except.ok.injEq] at h
          exact h.symm
        · rw [if_neg h2] at h
          by_cases h3 : running d.owner_vm = true
          · rw [if_pos h3] at h
            exact Except.noConfusion h
          · rw [if_neg h3] at h
            have := ih _ _ _ h
            rwa [lockErase_idem] at this

theorem cleanup_cons_self (f : LockDir) (l : LockState) (vm canonical : String) :
    cleanup_other_locks_for_vm ((canonical, f) :: l) vm canonical =
      (canonical, f) :: l.filter (fun p => p.1 == canonical || p.2.owner_vm != vm) := by
  unfold cleanup_other_locks_for_vm
  rw [List.filter_cons, if_pos (by simp)]

/-- C3: when `acquire_path_lock` finds an existing lock directory owned by a
different VM, it fails with a `LockError` naming the running owner VM, the
owner host, and the locked path if the backend reports the owner running;
otherwise it reclaims the stale directory and the new VM's acquisition
succeeds (the directory then carries the new owner's metadata). -/
theorem acquire_lock_owner_conflict (running : String → Bool) (spec : LockSpec)
    (vm host canonical : String) (st : LockState) (d : LockDir)
    (hl : lockLookup st canonical = some d)
    (hne : d.owner_vm ≠ "") (hvm : d.owner_vm ≠ vm) :
    (running d.owner_vm = true →
      acquire_path_lock running spec vm host canonical st =
        .error (lockInUseMsg spec d.owner_vm d.owner_host d.path_value canonical) ∧
      strContains (lockInUseMsg spec d.owner_vm d.owner_host d.path_value canonical)
        d.owner_vm = true ∧
      strContains (lockInUseMsg spec d.owner_vm d.owner_host d.path_value canonical)
        (if d.owner_host = "" then "unknown" else d.owner_host) = true ∧
      strContains (lockInUseMsg spec d.owner_vm d.owner_host d.path_value canonical)
        (if d.path_value = "" then canonical else d.path_value) = true) ∧
    (running d.owner_vm = false →
      ∃ st', acquire_path_lock running spec vm host canonical st = .ok st' ∧
        lockLookup st' canonical = some (freshLockDir vm host canonical)) := by
  constructor
  · intro hr
    refine ⟨?_, ?_, ?_, ?_⟩
    · unfold acquire_path_lock
      simp only [acquireGo, hl]
      rw [if_neg hne, if_neg hvm, if_pos hr]
    · unfold lockInUseMsg
      exact strContains_append_right _ (strContains_append_right _ (strContains_middle _ _ _))
    · unfold lockInUseMsg
      exact strContains_append_right _ (strContains_append_right _ (strContains_append_right _
        (strContains_append_right _ (strContains_append_right _ (strContains_append_right _
          (strContains_middle _ _ _))))))
    · unfold lockInUseMsg
      exact strContains_append_right _ (strContains_append_right _ (strContains_append_right _
        (strContains_append_right _ (strContains_middle _ _ _))))
  · intro hr
    have hfalse : ¬ (running d.owner_vm = true) := by simp [hr]
    refine ⟨cleanup_other_locks_for_vm
        ((canonical, freshLockDir vm host canonical) :: lockErase st canonical) vm canonical,
      ?_, ?_⟩
    · unfold acquire_path_lock
      simp only [acquireGo, hl]
      rw [if_neg hne, if_neg hvm, if_neg hfalse]
      simp only [acquireGo, lockLookup_erase]
    · rw [cleanup_cons_self]
      unfold lockLookup
      rw [List.find?_cons_of_pos _ (by simp)]
      rfl

/-- Witness for C3: `clawbox-2` acquiring `/src` held by `clawbox-1`
(running per the backend) fails as described; with a backend reporting no VM
running the same acquisition succeeds. -/
theorem acquire_lock_owner_conflict_witness :
    (lockLookup [("/src", (⟨"clawbox-1", "mac-1", "/src"⟩ : LockDir))] "/src" =
        some ⟨"clawbox-1", "mac-1", "/src"⟩) ∧
    (((fun n => n == "clawbox-1") : String → Bool) "clawbox-1" = true →
      acquire_path_lock (fun n => n == "clawbox-1") OPENCLAW_SOURCE_LOCK "clawbox-2" "mac-2"
          "/src" [("/src", ⟨"clawbox-1", "mac-1", "/src"⟩)] =
        .error (lockInUseMsg OPENCLAW_SOURCE_LOCK "clawbox-1" "mac-1" "/src" "/src") ∧
      strContains (lockInUseMsg OPENCLAW_SOURCE_LOCK "clawbox-1" "mac-1" "/src" "/src")
        "clawbox-1" = true ∧
      strContains (lockInUseMsg OPENCLAW_SOURCE_LOCK "clawbox-1" "mac-1" "/src" "/src")
        (if ("mac-1" : String) = "" then "unknown" else "mac-1") = true ∧
      strContains (lockInUseMsg OPENCLAW_SOURCE_LOCK "clawbox-1" "mac-1" "/src" "/src")
        (if ("/src" : String) = "" then "/src" else "/src") = true) ∧
    (((fun n => n == "clawbox-1") : String → Bool) "clawbox-1" = false →
      ∃ st', acquire_path_lock (fun n => n == "clawbox-1") OPENCLAW_SOURCE_LOCK "clawbox-2"
          "mac-2" "/src" [("/src", ⟨"clawbox-1", "mac-1", "/src"⟩)] = .ok st' ∧
        lockLookup st' "/src" = some (freshLockDir "clawbox-2" "mac-2" "/src")) :=
  ⟨rfl,
   acquire_lock_owner_conflict (fun n => n == "clawbox-1") OPENCLAW_SOURCE_LOCK
     "clawbox-2" "mac-2" "/src" [("/src", ⟨"clawbox-1", "mac-1", "/src"⟩)]
     ⟨"clawbox-1", "mac-1", "/src"⟩ rfl (by decide) (by decide)⟩

/-- C4: a successful `acquire_path_lock` preserves key uniqueness of the lock
root (one directory per canonical path, directories being named by the path
hash), leaves the acquiring VM owning exactly the one new directory for this
kind (its previous lock directory for the kind is removed), and adds no
directory owned by any other VM. -/
theorem acquire_lock_at_most_one (running : String → Bool) (spec : LockSpec)
    (vm host canonical : String) (st st' : LockState)
    (hok : acquire_path_lock running spec vm host canonical st = .ok st') :
    ((st.map Prod.fst).Nodup → (st'.map Prod.fst).Nodup) ∧
    st'.filter (fun p => p.2.owner_vm == vm) =
      [(canonical, freshLockDir vm host canonical)] ∧
    (∀ w, w ≠ vm →
      (st'.filter (fun p => p.2.owner_vm == w)).Sublist
        (st.filter (fun p => p.2.owner_vm == w))) := by
  have hshape := acquireGo_ok_shape running spec vm host canonical 12 1 st st' hok
  rw [cleanup_cons_self] at hshape
  subst hshape
  set t' := (lockErase st canonical).filter
    (fun p => p.1 == canonical || p.2.owner_vm != vm) with ht'
  have ht'sub : t'.Sublist st := by
    refine List.Sublist.trans (List.filter_sublist _) ?_
    unfold lockErase
    exact List.filter_sublist st
  have hmem : ∀ p ∈ t', p ∈ st ∧ (p.1 == canonical) = false ∧ (p.2.owner_vm == vm) = false := by
    intro p hp
    have h2 := List.of_mem_filter hp
    have hp1 := (List.mem_filter.mp hp).1
    have h1 := List.of_mem_filter hp1
    have hpst := (List.mem_filter.mp hp1).1
    have hc : (p.1 == canonical) = false := by simpa [bne] using h1
    have hw : (p.2.owner_vm == vm) = false := by
      rw [hc] at h2
      simpa [bne] using h2
    exact ⟨hpst, hc, hw⟩
  refine ⟨?_, ?_, ?_⟩
  · intro hnd
    rw [List.map_cons, List.nodup_cons]
    constructor
    · intro hmemc
      obtain ⟨p, hp, hpc⟩ := List.mem_map.mp hmemc
      have hfalse := (hmem p hp).2.1
      rw [hpc] at hfalse
      simp at hfalse
    · exact List.Nodup.sublist (List.Sublist.map Prod.fst ht'sub) hnd
  · rw [List.filter_cons, if_pos (by simp [freshLockDir])]
    rw [List.filter_eq_nil_iff.mpr (fun p hp => by simp [(hmem p hp).2.2])]
  · intro w hw
    rw [List.filter_cons, if_neg (by simp [freshLockDir, Ne.symm hw])]
    exact List.Sublist.filter _ ht'sub

/-- Witness for C4: a concrete acquisition over a stale lock yields a root
holding exactly the new directory. -/
theorem acquire_lock_at_most_one_witness :
    (acquire_path_lock (fun _ => false) OPENCLAW_SOURCE_LOCK "clawbox-2" "mac-2" "/src"
        [("/src", ⟨"clawbox-1", "mac-1", "/src"⟩)] =
      .ok [("/src", freshLockDir "clawbox-2" "mac-2" "/src")]) ∧
    ((([("/src", (⟨"clawbox-1", "mac-1", "/src"⟩ : LockDir))] :
        LockState).map Prod.fst).Nodup →
      (([("/src", freshLockDir "clawbox-2" "mac-2" "/src")] :
        LockState).map Prod.fst).Nodup) ∧
    ([("/src", freshLockDir "clawbox-2" "mac-2" "/src")] : LockState).filter
        (fun p => p.2.owner_vm == "clawbox-2") =
      [("/src", freshLockDir "clawbox-2" "mac-2" "/src")] ∧
    (∀ w, w ≠ "clawbox-2" →
      (([("/src", freshLockDir "clawbox-2" "mac-2" "/src")] : LockState).filter
          (fun p => p.2.owner_vm == w)).Sublist
        (([("/src", (⟨"clawbox-1", "mac-1", "/src"⟩ : LockDir))] : LockState).filter
          (fun p => p.2.owner_vm == w))) :=
  ⟨rfl,
   acquire_lock_at_most_one (fun _ => false) OPENCLAW_SOURCE_LOCK "clawbox-2" "mac-2" "/src"
     [("/src", ⟨"clawbox-1", "mac-1", "/src"⟩)]
     [("/src", freshLockDir "clawbox-2" "mac-2" "/src")] rfl⟩

/-- C2: `locked_path_for_vm` (modelled from the spec; the function is imported
by the orchestrator from `clawbox.locks` but its definition is not in the
sources) reads back the canonical path a VM currently holds for a kind: a VM
owning no lock directory yields `""`, and after a successful
`acquire_path_lock` the VM's recorded path is the canonical path just locked —
which is how `_host_paths_from_locks` reactivates sync without the user
re-passing path arguments. -/
theorem locked_path_for_vm_reads_back :
    (∀ (st : LockState) (vm : String), (∀ p ∈ st, p.2.owner_vm ≠ vm) →
      locked_path_for_vm st vm = "") ∧
    (∀ (running : String → Bool) (spec : LockSpec) (vm host canonical : String)
        (st st' : LockState),
      acquire_path_lock running spec vm host canonical st = .ok st' →
      locked_path_for_vm st' vm = canonical) := by
  constructor
  · intro st vm h
    unfold locked_path_for_vm
    rw [List.find?_eq_none.mpr (fun p hp => by simp [h p hp])]
  · intro running spec vm host canonical st st' hok
    have hshape := acquireGo_ok_shape running spec vm host canonical 12 1 st st' hok
    rw [cleanup_cons_self] at hshape
    subst hshape
    unfold locked_path_for_vm
    rw [List.find?_cons_of_pos _ (by simp [freshLockDir])]
    rfl

/-- Witness for C2: an empty root reads back `""`; after `clawbox-2` locks
`/src`, the path reads back as `/src`. -/
theorem locked_path_for_vm_reads_back_witness :
    locked_path_for_vm ([] : LockState) "clawbox-1" = "" ∧
    locked_path_for_vm [("/src", freshLockDir "clawbox-2" "mac-2" "/src")] "clawbox-2" =
      "/src" :=
  ⟨locked_path_for_vm_reads_back.1 [] "clawbox-1" (by simp),
   locked_path_for_vm_reads_back.2 (fun _ => false) OPENCLAW_SOURCE_LOCK "clawbox-2"
     "mac-2" "/src" [("/src", ⟨"clawbox-1", "mac-1", "/src"⟩)]
     [("/src", freshLockDir "clawbox-2" "mac-2" "/src")] rfl⟩

/-! ## Sync event log (`clawbox/sync_events.py`)

The log's effect on the filesystem is modelled by the byte sizes of the two
files (`sync-events.jsonl` and its single rotation target
`sync-events.jsonl.1`); `none` means the file does not exist. -/

def DEFAULT_SYNC_EVENT_LOG_MAX_BYTES : Nat := 5 * 1024 * 1024

/-- `sync_events._max_log_size_bytes`: `none` = env var unset, `some none` =
set but not an integer, `some (some v)` = parses as `v` (non-positive values
fall back to the default). -/
def max_log_size_bytes (raw : Option (Option Int)) : Nat :=
  match raw with
  | none => DEFAULT_SYNC_EVENT_LOG_MAX_BYTES
  | some none => DEFAULT_SYNC_EVENT_LOG_MAX_BYTES
  | some (some v) => if v ≤ 0 then DEFAULT_SYNC_EVENT_LOG_MAX_BYTES else v.toNat

/-- Sizes of the log file and the single rotation file. -/
structure LogState where
  main : Option Nat
  rotated : Option Nat
  deriving DecidableEq, Repr

/-- `sync_events._maybe_rotate`: if the file exists and its size is at or over
the limit, rename it over the rotation target (dropping any previous one). -/
def maybe_rotate (maxBytes : Nat) (st : LogState) : LogState :=
  match st.main with
  | none => st
  | some size => if size < maxBytes then st else ⟨none, some size⟩

/-- `sync_events.emit_sync_event`'s effect on the two file sizes: rotate if
needed, then append the encoded event (`eventLen` bytes; `O_APPEND | O_CREAT`
creates the file at size 0). -/
def emit_sync_event (maxBytes eventLen : Nat) (st : LogState) : LogState :=
  let st1 := maybe_rotate maxBytes st
  ⟨some ((st1.main.getD 0) + eventLen), st1.rotated⟩

/-- A sequence of emissions starting from a state. -/
def emit_sync_events (maxBytes : Nat) (events : List Nat) (st : LogState) : LogState :=
  events.foldl (fun s len => emit_sync_event maxBytes len s) st

/-- C7 counterexample: with the env-overridden max size 10, two 8-byte events
leave the log file at 16 bytes — over the configured max.  The log file can
always exceed `max_bytes` by up to one event, so the claimed bound is false. -/
theorem sync_event_log_exceeds_max :
    (emit_sync_events (max_log_size_bytes (some (some 10))) [8, 8]
        ⟨none, none⟩).main = some 16 ∧
    ¬ ((emit_sync_events (max_log_size_bytes (some (some 10))) [8, 8]
        ⟨none, none⟩).main.getD 0 ≤ max_log_size_bytes (some (some 10))) := by
  decide

/-- C7 (amended): before each append the rotation check leaves the log file
strictly below the configured max ­— so after the append it is below
`max_bytes + (size of the event just written)`, though it can exceed
`max_bytes` itself until the next emission rotates it; and at most one
rotation file is ever retained (the single `.jsonl.1` target, overwritten on
each rotation). -/
theorem sync_event_log_bound (maxBytes eventLen : Nat) (st : LogState)
    (h : 0 < maxBytes) :
    (maybe_rotate maxBytes st).main.getD 0 < maxBytes ∧
    (emit_sync_event maxBytes eventLen st).main.getD 0 < maxBytes + eventLen := by
  have hrot : (maybe_rotate maxBytes st).main.getD 0 < maxBytes := by
    cases hm : st.main with
    | none =>
      simp only [maybe_rotate, hm, Option.getD_none]
      exact h
    | some size =>
      simp only [maybe_rotate, hm]
      by_cases hs : size < maxBytes
      · rw [if_pos hs]
        simp only [hm, Option.getD_some]
        exact hs
      · rw [if_neg hs]
        simpa using h
  refine ⟨hrot, ?_⟩
  unfold emit_sync_event
  simpa using Nat.add_lt_add_right hrot eventLen

/-- Witness for C7's amended bound: max 10, a 7-byte event over a 12-byte
file rotates first and lands at 7 < 17. -/
theorem sync_event_log_bound_witness :
    0 < (10 : Nat) ∧
    ((maybe_rotate 10 ⟨some 12, none⟩).main.getD 0 < 10 ∧
     (emit_sync_event 10 7 ⟨some 12, none⟩).main.getD 0 < 10 + 7) :=
  ⟨by decide, sync_event_log_bound 10 7 ⟨some 12, none⟩ (by decide)⟩

/-! ## VM backend adapter and status candidates (`clawbox/tart.py`,
`clawbox/status.py`) -/

/-- Parsed JSON values (`json.loads` output). -/
inductive Json where
  | null : Json
  | bool (b : Bool) : Json
  | num (n : Int) : Json
  | str (s : String) : Json
  | arr (items : List Json) : Json
  | obj (fields : List (String × Json)) : Json

/-- Python `dict.get` on a JSON object (`json.loads` keeps the last duplicate
key; object field lists here carry unique keys, so first lookup suffices). -/
def jsonObjGet (fields : List (String × Json)) (key : String) : Option Json :=
  (fields.find? (fun p => p.1 == key)).map (fun p => p.2)

/-- `TartClient.list_vms_json` after `json.loads` succeeded: protocol error
unless the payload is a JSON list, otherwise the records unchanged. -/
def list_vms_json (payload : Json) : Except String (List Json) :=
  match payload with
  | .arr items => .ok items
  | _ => .error "Unexpected tart list payload: expected a JSON list"

/-- Python `int()` over an all-digit ASCII string. -/
def digitsToNat (l : List Char) : Nat :=
  l.foldl (fun acc c => acc * 10 + (c.toNat - 48)) 0

/-- `status._parse_vm_suffix_number`: name must be `<base>-<digits>` with the
numeric suffix at least 1 (digits modelled as ASCII). -/
def parse_vm_suffix_number (vm_name base_name : String) : Option Nat :=
  let pre := base_name ++ "-"
  if pre.isPrefixOf vm_name then
    let suffix := vm_name.data.drop pre.data.length
    if !suffix.isEmpty && suffix.all Char.isDigit then
      let value := digitsToNat suffix
      if value < 1 then none else some value
    else none
  else none

/-- Lexicographic code-point comparison of strings (Python `str <`),
used as the tiebreak in `sorted`. -/
def strLtB : List Char → List Char → Bool
  | [], [] => false
  | [], _ :: _ => true
  | _ :: _, [] => false
  | a :: as, b :: bs => if a < b then true else if b < a then false else strLtB as bs

/-- The sort key of `_candidate_vm_names`: `(suffix number or 10^9, name)`. -/
def vmNameKey (base n : String) : Nat := (parse_vm_suffix_number n base).getD (10 ^ 9)

/-- `sorted`'s ordering on candidate names. -/
def vmNameLe (base : String) (a b : String) : Bool :=
  decide (vmNameKey base a < vmNameKey base b) ||
  (decide (vmNameKey base a = vmNameKey base b) && !(strLtB b.data a.data))

/-- The name a tart record contributes to the candidate set: skipped when the
`Name` field is not a string, or when the name does not match
`<base>-<positive number>`. -/
def tartRecordName (base : String) (fields : List (String × Json)) : Option String :=
  match jsonObjGet fields "Name" with
  | some (.str name) =>
    if (parse_vm_suffix_number name base).isSome then some name else none
  | _ => none

/-- Does a record carry a string `Name` (records failing this are skipped)? -/
def recordHasStringName (fields : List (String × Json)) : Bool :=
  match jsonObjGet fields "Name" with
  | some (.str _) => true
  | _ => false

/-- `status._candidate_vm_names`: names from the backend list (string `Name`
matching the base pattern) united with marker-file names matching the
pattern, as a sorted deduplicated list.  `markerNames` are the names read
from `<state>/<base>-*.provisioned` files. -/
def candidate_vm_names (base : String) (items : List (List (String × Json)))
    (markerNames : List String) : List String :=
  ((items.filterMap (tartRecordName base) ++
      markerNames.filter (fun n => (parse_vm_suffix_number n base).isSome)).dedup).mergeSort
    (vmNameLe base)

theorem filterMap_filter_eq {α β : Type} (p : α → Bool) (f : α → Option β)
    (hf : ∀ a, p a = false → f a = none) (l : List α) :
    (l.filter p).filterMap f = l.filterMap f := by
  induction l with
  | nil => rfl
  | cons a t ih =>
    by_cases h : p a = true
    · rw [List.filter_cons, if_pos h]
      cases hfa : f a <;> simp [List.filterMap_cons, hfa, ih]
    · have hfa := hf a (by simpa using h)
      rw [List.filter_cons, if_neg h]
      simp [List.filterMap_cons, hfa, ih]

/-- C8: the backend adapter's `list` fails with the protocol error exactly
when the parsed JSON payload is not a list; and the candidate-name
computation skips records whose `Name` field is not a string — restricting
the backend records to those with a string `Name` leaves its result
unchanged. -/
theorem tart_list_protocol_and_skip :
    (∀ payload : Json,
      (∃ items, payload = Json.arr items ∧ list_vms_json payload = .ok items) ∨
      ((∀ items, payload ≠ Json.arr items) ∧
        list_vms_json payload =
          .error "Unexpected tart list payload: expected a JSON list")) ∧
    (∀ (base : String) (markerNames : List String)
        (items : List (List (String × Json))),
      candidate_vm_names base (items.filter recordHasStringName) markerNames =
        candidate_vm_names base items markerNames) := by
  constructor
  · intro payload
    cases payload with
    | arr items => exact Or.inl ⟨items, rfl, rfl⟩
    | null => exact Or.inr ⟨(fun items h => nomatch h), rfl⟩
    | bool b => exact Or.inr ⟨(fun items h => nomatch h), rfl⟩
    | num n => exact Or.inr ⟨(fun items h => nomatch h), rfl⟩
    | str s => exact Or.inr ⟨(fun items h => nomatch h), rfl⟩
    | obj fields => exact Or.inr ⟨(fun items h => nomatch h), rfl⟩
  · intro base markerNames items
    unfold candidate_vm_names
    rw [filterMap_filter_eq recordHasStringName (tartRecordName base) ?_ items]
    intro fields hp
    unfold tartRecordName
    unfold recordHasStringName at hp
    cases hx : jsonObjGet fields "Name" with
    | none => rfl
    | some j =>
      cases j with
      | str s =>
        rw [hx] at hp
        simp at hp
      | null => rfl
      | bool b => rfl
      | num n => rfl
      | arr l => rfl
      | obj f => rfl

/-- Witness for C8: a payload that is not a list errors; a record set with a
non-string `Name` yields the same candidates as without it. -/
theorem tart_list_protocol_and_skip_witness :
    ((∃ items, Json.str "x" = Json.arr items ∧ list_vms_json (Json.str "x") = .ok items) ∨
      ((∀ items, Json.str "x" ≠ Json.arr items) ∧
        list_vms_json (Json.str "x") =
          .error "Unexpected tart list payload: expected a JSON list")) ∧
    candidate_vm_names "clawbox"
        ([[("Name", Json.str "clawbox-2")], [("Name", Json.num 7)]].filter
          recordHasStringName) ["clawbox-1"] =
      candidate_vm_names "clawbox"
        [[("Name", Json.str "clawbox-2")], [("Name", Json.num 7)]] ["clawbox-1"] :=
  ⟨tart_list_protocol_and_skip.1 (Json.str "x"),
   tart_list_protocol_and_skip.2 "clawbox" ["clawbox-1"]
     [[("Name", Json.str "clawbox-2")], [("Name", Json.num 7)]]⟩

/-! ## `down` ordering (`orchestrator.down_vm`, `_stop_vm_and_wait`,
`mutagen.terminate_vm_sessions`)

The external calls a `down` invocation makes are modelled as an event trace.
The sync-teardown success path is modelled (`MutagenError` aborts the command
and makes no further calls, which cannot reorder stop before teardown). -/

/-- External calls observable during `down`. -/
inductive OrchEvent where
  | vmExistsQuery (vm : String)
  | vmRunningQuery (vm : String)
  | watcherStop (vm : String)
  | logEvent (vm event : String)
  | syncFlush (vm : String)
  | syncTerminate (vm : String)
  | vmStop (vm : String)
  | locksCleanup (vm : String)
  deriving DecidableEq, Repr

/-- `mutagen.terminate_vm_sessions`: nothing when the sync tool is absent;
otherwise an optional labeled flush followed by the labeled terminate. -/
def terminate_vm_sessions_trace (mutagenAvailable : Bool) (vm : String)
    (flush : Bool) : List OrchEvent :=
  if mutagenAvailable then
    (if flush then [.syncFlush vm] else []) ++ [.syncTerminate vm]
  else []

/-- `orchestrator._deactivate_mutagen_sync` (success path): the
`teardown_start` event, the teardown, the `teardown_ok` event. -/
def deactivate_mutagen_sync_trace (mutagenAvailable : Bool) (vm : String)
    (flush : Bool) : List OrchEvent :=
  [.logEvent vm "teardown_start"] ++
  terminate_vm_sessions_trace mutagenAvailable vm flush ++
  [.logEvent vm "teardown_ok"]

/-- The stop-wait poll loop: one `vm_running` query per oracle answer,
stopping at the first `false` (`polls` abstracts the bounded 120 s loop). -/
def pollEvents (vm : String) : List Bool → List OrchEvent
  | [] => []
  | r :: rest => .vmRunningQuery vm :: (if r then pollEvents vm rest else [])

/-- Did the poll loop observe the VM stopped? -/
def pollStopped : List Bool → Bool
  | [] => false
  | r :: rest => if r then pollStopped rest else true

/-- `orchestrator._stop_vm_and_wait`: stop the watcher, tear down sync with
flush, stop the VM, poll until stopped or timeout. -/
def stop_vm_and_wait_trace (mutagenAvailable : Bool) (vm : String)
    (polls : List Bool) : List OrchEvent × Bool :=
  ([.watcherStop vm] ++ deactivate_mutagen_sync_trace mutagenAvailable vm true ++
     [.vmStop vm] ++ pollEvents vm polls,
   pollStopped polls)

/-- `orchestrator.down_vm` as a trace; the `Bool` is `false` when the command
raises the stop-timeout error. -/
def down_vm_trace (mutagenAvailable : Bool) (vm : String)
    (vmExists vmRunning : Bool) (polls : List Bool) : List OrchEvent × Bool :=
  if !vmExists then
    ([.vmExistsQuery vm, .watcherStop vm] ++
       deactivate_mutagen_sync_trace mutagenAvailable vm false ++
       [.locksCleanup vm], true)
  else if vmRunning then
    let stop := stop_vm_and_wait_trace mutagenAvailable vm polls
    let pre := [.vmExistsQuery vm, .vmRunningQuery vm] ++ stop.1
    if stop.2 then
      (pre ++ [.watcherStop vm] ++
         deactivate_mutagen_sync_trace mutagenAvailable vm false ++
         [.locksCleanup vm], true)
    else (pre, false)
  else
    ([.vmExistsQuery vm, .vmRunningQuery vm, .watcherStop vm] ++
       deactivate_mutagen_sync_trace mutagenAvailable vm false ++
       [.locksCleanup vm], true)

/-- C5 counterexample: in a successful `down` of a running VM the trace
contains a second, flushless sync teardown after the VM stop (index 7 is the
`stop`, index 11 a `sync terminate`), so "the VM stop never precedes sync
termination" is false as stated. -/
theorem down_vm_terminate_after_stop :
    ((down_vm_trace true "clawbox-1" true true [false]).1.get? 7 =
        some (.vmStop "clawbox-1")) ∧
    ((down_vm_trace true "clawbox-1" true true [false]).1.get? 11 =
        some (.syncTerminate "clawbox-1")) ∧ 7 < 11 := by
  decide

/-- C5 (amended): within `down` on an existing running VM (sync tool
available), the flush-bearing sync teardown strictly precedes the backend
stop: for every poll outcome the trace begins with the exists/running
queries, the watcher stop, the teardown (flush at index 4, terminate at
index 5), and only then — at index 7, the first possible position — the VM
stop.  (A second, flushless best-effort teardown follows the stop; C5's
universal "never precedes" fails only on that.) -/
theorem down_vm_teardown_before_stop (vm : String) (polls : List Bool) :
    (down_vm_trace true vm true true polls).1.take 8 =
      [.vmExistsQuery vm, .vmRunningQuery vm, .watcherStop vm,
       .logEvent vm "teardown_start", .syncFlush vm, .syncTerminate vm,
       .logEvent vm "teardown_ok", .vmStop vm] := by
  cases hs : pollStopped polls <;>
    simp [down_vm_trace, stop_vm_and_wait_trace, deactivate_mutagen_sync_trace,
      terminate_vm_sessions_trace, hs, List.take_append_eq_append_take]

/-! ## `up` validation phase (`orchestrator.up`, `_validate_feature_flags`,
`services.py`)

`up`'s prefix — argument validation through the provision-reason computation —
is modelled with an event list recording every state-changing call made so
far; a validation failure carries the events already performed (none). -/

/-- `services.OptionalServiceSpec`. -/
structure OptionalServiceSpec where
  key : String
  display_name : String
  cli_flag : String
  allowed_profiles : List String
  deriving DecidableEq, Repr

/-- `services.OPTIONAL_SERVICES`. -/
def OPTIONAL_SERVICES : List OptionalServiceSpec :=
  [⟨"playwright", "Playwright", "--add-playwright-provisioning",
    ["standard", "developer"]⟩,
   ⟨"tailscale", "Tailscale", "--add-tailscale-provisioning",
    ["standard", "developer"]⟩,
   ⟨"signal_cli", "signal-cli", "--add-signal-cli-provisioning",
    ["standard", "developer"]⟩]

/-- `services.enabled_optional_service_keys` (as a list; the source's set only
feeds membership tests and a sorted message). -/
def enabled_optional_service_keys (pw ts sc : Bool) : List String :=
  (if pw then ["playwright"] else []) ++
  (if ts then ["tailscale"] else []) ++
  (if sc then ["signal_cli"] else [])

/-- `services.unsupported_optional_services`: enabled services whose allowed
profiles exclude the requested profile. -/
def unsupported_optional_services (profile : String) (enabled : List String) :
    List OptionalServiceSpec :=
  OPTIONAL_SERVICES.filter
    (fun s => enabled.contains s.key && !(s.allowed_profiles.contains profile))

/-- The unsupported-services message of `_validate_feature_flags`. -/
def unsupportedServicesMsg (unsupported : List OptionalServiceSpec)
    (profile : String) : String :=
  "Error: " ++ String.intercalate ", " (unsupported.map (fun s => s.display_name)) ++
  " provisioning is not supported for profile '" ++ profile ++ "'.\n" ++
  "Supported profiles: " ++
  String.intercalate ", "
    (((unsupported.foldr (fun s acc => s.allowed_profiles ++ acc) []).dedup).mergeSort
      (fun a b => !(strLtB b.data a.data)))

/-- `orchestrator._validate_profile`. -/
def validate_profile (profile : String) : Except String Unit :=
  if profile = "standard" ∨ profile = "developer" then .ok ()
  else .error "Error: --profile must be 'standard' or 'developer'"

/-- `orchestrator._validate_profile_mount_args`. -/
def validate_profile_mount_args (profile openclaw_source openclaw_payload
    signal_payload : String) : Except String Unit :=
  if profile = "developer" then
    if openclaw_source = "" ∨ openclaw_payload = "" then
      .error "Error: Developer profile requires --openclaw-source and --openclaw-payload."
    else .ok ()
  else if openclaw_source ≠ "" ∨ openclaw_payload ≠ "" then
    .error "Error: --openclaw-source/--openclaw-payload are only valid in developer mode."
  else if signal_payload ≠ "" then
    .error "Error: --signal-cli-payload is only valid in developer mode."
  else .ok ()

/-- `orchestrator._validate_feature_flags`. -/
def validate_feature_flags (profile : String)
    (enable_playwright enable_tailscale enable_signal_cli
      enable_signal_payload : Bool) (signal_payload : String) :
    Except String Unit :=
  let enabled := enabled_optional_service_keys enable_playwright enable_tailscale
    enable_signal_cli
  let unsupported := unsupported_optional_services profile enabled
  if unsupported ≠ [] then .error (unsupportedServicesMsg unsupported profile)
  else if enable_signal_payload ∧ profile ≠ "developer" then
    .error ("Error: signal-cli payload mode is only valid in developer mode.\n" ++
      "Standard mode supports signal-cli provisioning only (no custom payload mounts).")
  else if enable_signal_payload ∧ enable_signal_cli = false then
    .error ("Error: " ++
      ((if signal_payload ≠ "" then "--signal-cli-payload" else "--enable-signal-payload") ++
       (" requires --add-signal-cli-provisioning.\n" ++
        "Enable signal-cli provisioning explicitly when using payload mode.")))
  else .ok ()

/-- `orchestrator._validate_dirs`: the first nonempty path that is not a
directory aborts. -/
def validate_dirs (paths : List String) (isDir : String → Bool) :
    Except String Unit :=
  match paths.find? (fun p => p != "" && !(isDir p)) with
  | some p => .error ("Error: Expected directory does not exist: " ++ p)
  | none => .ok ()

/-- State-changing calls `up` can make before and including VM creation. -/
inductive UpEvent where
  | secretsCreate
  | vmCreate (vm : String)
  deriving DecidableEq, Repr

/-- The host/backend facts `up`'s prefix consults. -/
structure UpEnv where
  dirExists : String → Bool
  secretsFileExists : Bool
  vmExists : Bool
  vmExistsAfterCreate : Bool
  markerContents : Option String

/-- `orchestrator.up` from entry through `_compute_up_provision_reason`:
validations, secrets-file creation, VM creation for an absent VM, then the
provision-reason computation.  Errors carry the state-changing events already
performed (`create_vm` is one `vmCreate` event; its internal backend calls
are behind `env.vmExistsAfterCreate`). -/
def up_through_provision_reason (base markerFile : String) (opts : UpOptions)
    (env : UpEnv) : Except (String × List UpEvent) (List UpEvent × String) :=
  match validate_profile opts.profile with
  | .error e => .error (e, [])
  | .ok _ =>
  match validate_profile_mount_args opts.profile opts.openclaw_source
      opts.openclaw_payload opts.signal_payload with
  | .error e => .error (e, [])
  | .ok _ =>
  match validate_feature_flags opts.profile opts.enable_playwright
      opts.enable_tailscale opts.enable_signal_cli
      (opts.signal_payload ≠ "") opts.signal_payload with
  | .error e => .error (e, [])
  | .ok _ =>
  match validate_dirs [opts.openclaw_source, opts.openclaw_payload,
      opts.signal_payload] env.dirExists with
  | .error e => .error (e, [])
  | .ok _ =>
  let ev0 : List UpEvent := if env.secretsFileExists then [] else [.secretsCreate]
  let vm := vm_name_for base opts.vm_number
  let created_vm := !env.vmExists
  let ev1 := ev0 ++ (if env.vmExists then [] else [.vmCreate vm])
  if created_vm ∧ env.vmExistsAfterCreate = false then
    .error ("Error: VM '" ++ vm ++ "' was not found after create_vm completed.\n" ++
      "Check tart output and verify the base image exists: macos-base", ev1)
  else
    match compute_up_provision_reason base markerFile opts env.markerContents
        created_vm (opts.signal_payload ≠ "") with
    | .error e => .error (e, ev1)
    | .ok reason => .ok (ev1, reason)

theorem unsupported_developer_empty (enabled : List String) :
    unsupported_optional_services "developer" enabled = [] := by
  apply List.filter_eq_nil_iff.mpr
  intro s hs
  fin_cases hs <;> simp

/-- C9 (amended): for every `up` invocation in developer profile with both
developer mounts supplied that provides a signal-cli payload path without
enabling signal-cli provisioning, the command fails during validation with a
`UserFacingError` containing `--signal-cli-payload requires
--add-signal-cli-provisioning`, and no state-changing call (secrets creation,
VM creation, locks, sync) has been made.  (The profile/mount hypotheses are
forced: outside developer profile, or with missing developer mounts, earlier
validations reject first with a different message — see the
counterexample.) -/
theorem up_signal_payload_requires_signal_cli (base markerFile : String)
    (opts : UpOptions) (env : UpEnv)
    (hprof : opts.profile = "developer") (hsrc : opts.openclaw_source ≠ "")
    (hpay : opts.openclaw_payload ≠ "") (hsig : opts.signal_payload ≠ "")
    (hsc : opts.enable_signal_cli = false) :
    ∃ e, up_through_provision_reason base markerFile opts env = .error (e, []) ∧
      strContains e "--signal-cli-payload requires --add-signal-cli-provisioning" = true := by
  have h1 : validate_profile opts.profile = .ok () := by
    rw [hprof]
    rfl
  have h2 : validate_profile_mount_args opts.profile opts.openclaw_source
      opts.openclaw_payload opts.signal_payload = .ok () := by
    rw [hprof]
    unfold validate_profile_mount_args
    simp [hsrc, hpay]
  have h3 : validate_feature_flags opts.profile opts.enable_playwright
      opts.enable_tailscale opts.enable_signal_cli
      (opts.signal_payload ≠ "") opts.signal_payload =
      .error ("Error: " ++ ("--signal-cli-payload" ++
        (" requires --add-signal-cli-provisioning.\n" ++
         "Enable signal-cli provisioning explicitly when using payload mode."))) := by
    rw [hprof, hsc]
    simp [validate_feature_flags, unsupported_developer_empty, hsig]
  refine ⟨"Error: " ++ ("--signal-cli-payload" ++
      (" requires --add-signal-cli-provisioning.\n" ++
       "Enable signal-cli provisioning explicitly when using payload mode.")), ?_, ?_⟩
  · unfold up_through_provision_reason
    rw [h1, h2, h3]
  · exact strContains_append_right _ (by decide)

/-- Witness for C9: a concrete developer invocation with a payload path and
no `--add-signal-cli-provisioning` is rejected with the required message and
an empty event list. -/
theorem up_signal_payload_requires_signal_cli_witness :
    ∃ e, up_through_provision_reason "clawbox" "/state/clawbox-1.provisioned"
        ⟨1, "developer", "/S", "/P", "/G", false, false, false⟩
        ⟨fun _ => true, true, true, true, none⟩ = .error (e, []) ∧
      strContains e "--signal-cli-payload requires --add-signal-cli-provisioning" = true :=
  up_signal_payload_requires_signal_cli "clawbox" "/state/clawbox-1.provisioned"
    ⟨1, "developer", "/S", "/P", "/G", false, false, false⟩
    ⟨fun _ => true, true, true, true, none⟩
    rfl (by decide) (by decide) (by decide) rfl

/-- C9 counterexample: a standard-profile `up` that supplies a signal-cli
payload path without enabling signal-cli provisioning fails with
`--signal-cli-payload is only valid in developer mode`, whose text does not
contain `--signal-cli-payload requires --add-signal-cli-provisioning` — so
the claim's universal "for every up invocation" is false as stated. -/
theorem up_signal_payload_other_message :
    (up_through_provision_reason "clawbox" "/state/clawbox-1.provisioned"
        ⟨1, "standard", "", "", "/G", false, false, false⟩
        ⟨fun _ => true, true, true, true, none⟩ =
      .error ("Error: --signal-cli-payload is only valid in developer mode.", [])) ∧
    strContains "Error: --signal-cli-payload is only valid in developer mode."
      "--signal-cli-payload requires --add-signal-cli-provisioning" = false := by
  constructor
  · rfl
  · decide

end Clawbox
